import Mathlib

/-!
Verification of the `atmchem` utility library.

`quickcalcs.py` provides three stateless formula functions:
  `chi_water` (mole fraction of water from T/RH/P), `p_to_c`
  (partial pressure to ppm/ppb/ppt concentration), and `raoults`
  (Raoult's-law partial pressure).
`animate.py` provides `animate`, which progressively reveals a line's
data point by point and optionally adjusts the axis limits.

Numeric quantities are embedded as real numbers for `chi_water`
(the saturation-pressure formula uses a real exponential `10 ** x`)
and as rationals elsewhere, where the source only performs field
arithmetic.  The `ValueError` raised by `p_to_c` is embedded as
`Except.error`; the scalar (non-array) behaviour of each function is
modelled, element-wise broadcasting being shape-independent.
-/

namespace quickcalcs

/-- Constant `A = 6.116441` of the Vaisala saturation-vapor-pressure
formula (`quickcalcs.py` line 58). -/
def A : ℝ := 6.116441

/-- Constant `m = 7.591386` of the Vaisala formula (line 59). -/
def m : ℝ := 7.591386

/-- Constant `Tn = 240.7263` of the Vaisala formula (line 60). -/
def Tn : ℝ := 240.7263

/-- H2O saturation vapor pressure in hectopascal:
`H2O_sat_P = A * 10**((m * T_celc) / (T_celc + Tn))`
(`quickcalcs.py` line 64). -/
noncomputable def H2O_sat_P (T_celc : ℝ) : ℝ :=
  A * (10 : ℝ) ^ ((m * T_celc) / (T_celc + Tn))

/-- `chi_water(T_celc, RH_percent, P_Torr, chi_h20_dry_air=False)`
(`quickcalcs.py` lines 17-81): water pressure `Pw = 0.01 * RH * H2O_sat_P`,
total pressure in hPa `P_hpa = P_Torr * (10**3 / 760)`, result
`Pw / (P_hpa - Pw)` when `chi_h20_dry_air` else `Pw / P_hpa`. -/
noncomputable def chi_water (T_celc RH_percent P_Torr : ℝ)
    (chi_h20_dry_air : Bool) : ℝ :=
  let Pw : ℝ := 0.01 * RH_percent * H2O_sat_P T_celc
  let P_hpa : ℝ := P_Torr * ((10 : ℝ) ^ (3 : ℕ) / 760)
  if chi_h20_dry_air then Pw / (P_hpa - Pw) else Pw / P_hpa

/-- The message of the `ValueError` raised by `p_to_c`
(`quickcalcs.py` lines 147-149); the source concatenates two string
literals. -/
def unsupportedUnitsMsg : String :=
  "Provided units or unit formats are not supported. See documentation for correct inputs."

/-- `p_to_c(P, Punit="mbar", Cunit="ppb", Psystem=1013.25)`
(`quickcalcs.py` lines 84-154): first `P` and `Psystem` are both
rescaled by the `Punit` branch (`Pa: *0.01`, `atm: *1013.25`,
`torr: *(1013.25/760)`, anything else untouched), then the `Cunit`
branch picks `factor` (`ppm: 10**6`, `ppb: 10**9`, `ppt: 10**12`,
anything else raises `ValueError`), and `(P / Psystem) * factor` is
returned. -/
def p_to_c (P : ℚ) (Punit : String) (Cunit : String) (Psystem : ℚ) :
    Except String ℚ :=
  let PP : ℚ × ℚ :=
    if Punit = "Pa" then (P * 0.01, Psystem * 0.01)
    else if Punit = "atm" then (P * 1013.25, Psystem * 1013.25)
    else if Punit = "torr" then (P * (1013.25 / 760), Psystem * (1013.25 / 760))
    else (P, Psystem)
  if Cunit = "ppm" then Except.ok ((PP.1 / PP.2) * 10 ^ 6)
  else if Cunit = "ppb" then Except.ok ((PP.1 / PP.2) * 10 ^ 9)
  else if Cunit = "ppt" then Except.ok ((PP.1 / PP.2) * 10 ^ 12)
  else Except.error unsupportedUnitsMsg

/-- The factor by which the `Punit` branch of `p_to_c` rescales both
`P` and `Psystem` (`quickcalcs.py` lines 121-134); unrecognized units
fall through with factor 1. -/
def punitFactor (Punit : String) : ℚ :=
  if Punit = "Pa" then 0.01
  else if Punit = "atm" then 1013.25
  else if Punit = "torr" then 1013.25 / 760
  else 1

/-- `raoults(pvapsolute, conc, mw_solute, mw_solvent=18.02, density=1)`
(`quickcalcs.py` lines 158-204): `mol_solute = (conc * 10**-3) / mw_solute`,
`mol_solvent = 1000 * density / mw_solvent`,
`chi_solute = mol_solute / (mol_solute + mol_solvent)`,
result `pvapsolute * chi_solute`. -/
def raoults (pvapsolute conc mw_solute mw_solvent density : ℚ) : ℚ :=
  let mol_solute : ℚ := (conc * 10 ^ (-3 : ℤ)) / mw_solute
  let mol_solvent : ℚ := 1000 * density / mw_solvent
  let chi_solute : ℚ := mol_solute / (mol_solute + mol_solvent)
  pvapsolute * chi_solute

end quickcalcs

namespace animatemod

/-- Minimum of a nonempty list, as `min(x_vals)` in `animate.py`
(an empty list is a caller error in the source). -/
def listMin (l : List ℚ) : ℚ :=
  match l with
  | [] => 0
  | x :: xs => xs.foldl min x

/-- Maximum of a nonempty list, as `max(y_vals)` in `animate.py`. -/
def listMax (l : List ℚ) : ℚ :=
  match l with
  | [] => 0
  | x :: xs => xs.foldl max x

/-- `np.ptp`: peak-to-peak range, maximum minus minimum. -/
def ptp (l : List ℚ) : ℚ := listMax l - listMin l

/-- The axis handle mutated by `animate` via `set_xlim` / `set_ylim`. -/
structure Axis where
  xlim : ℚ × ℚ
  ylim : ℚ × ℚ
deriving DecidableEq

/-- The `FuncAnimation` object built by `animate`: number of scheduled
frames, inter-frame interval, and the per-frame update function
(frame index to displayed x/y data). -/
structure AnimationSpec where
  frames : ℕ
  interval : ℕ
  update : ℕ → List ℚ × List ℚ

/-- `animate(line, fig, ax, filename=None, length_secs=5,
set_margins=False, margin_pcnt=0.05)` (`animate.py` lines 15-72),
modelled on the first line's data `x_vals`/`y_vals`: when
`set_margins` the axis limits become
`[min - margin_pcnt*ptp, max + margin_pcnt*ptp]` for x and y,
otherwise the axis is untouched; `animate_frames(frame)` sets the
line data to `x_vals[:frame+1]`, `y_vals[:frame+1]`; the animation is
driven with `frames = len(x_vals)` and `interval = 200`.  The result
is the axis after the call together with the animation object. -/
def animate (x_vals y_vals : List ℚ) (ax : Axis)
    (set_margins : Bool) (margin_pcnt : ℚ) : Axis × AnimationSpec :=
  let ax2 : Axis :=
    if set_margins then
      { xlim := (listMin x_vals - margin_pcnt * ptp x_vals,
                 listMax x_vals + margin_pcnt * ptp x_vals),
        ylim := (listMin y_vals - margin_pcnt * ptp y_vals,
                 listMax y_vals + margin_pcnt * ptp y_vals) }
    else ax
  let animate_frames : ℕ → List ℚ × List ℚ := fun frame =>
    (x_vals.take (frame + 1), y_vals.take (frame + 1))
  (ax2, { frames := x_vals.length, interval := 200, update := animate_frames })

end animatemod

open quickcalcs animatemod

/-- C5: for every temperature and total pressure (and both denominator
conventions), zero relative humidity gives zero mole fraction:
`chi_water T 0 P dry = 0`. -/
theorem chi_water_zero_humidity (T P : ℝ) (dry : Bool) :
    chi_water T 0 P dry = 0 := by
  cases dry <;> simp [chi_water]

/-- C8: zero solute concentration gives zero partial pressure:
`raoults p 0 mw` (with the default solvent molecular weight 18.02 and
density 1) equals 0 for every vapor pressure `p` and molecular
weight `mw`. -/
theorem raoults_zero_conc (p mw : ℚ) :
    raoults p 0 mw 18.02 1 = 0 := by
  simp [raoults]

/-- C1: `p_to_c` raises the `ValueError` with the unsupported-units
message exactly when `Cunit` is outside `{"ppm", "ppb", "ppt"}`, and
succeeds (raising nothing) for every `P`, `Punit`, `Psystem` otherwise. -/
theorem p_to_c_error_iff (P Psystem : ℚ) (Punit Cunit : String) :
    (p_to_c P Punit Cunit Psystem = Except.error unsupportedUnitsMsg ↔
      ¬(Cunit = "ppm" ∨ Cunit = "ppb" ∨ Cunit = "ppt")) ∧
    ((p_to_c P Punit Cunit Psystem).isOk ↔
      (Cunit = "ppm" ∨ Cunit = "ppb" ∨ Cunit = "ppt")) := by
  by_cases h1 : Cunit = "ppm" <;> by_cases h2 : Cunit = "ppb" <;>
    by_cases h3 : Cunit = "ppt" <;>
    simp [p_to_c, h1, h2, h3, Except.isOk, Except.toBool]

/-- C3: for a recognized `Cunit`, `p_to_c` returns the ratio of the
unit-normalized pressures scaled by `10^6` (`ppm`), `10^9` (`ppb`) or
`10^12` (`ppt`); in particular `p_to_c 10 "mbar" "ppm" 1000 = 10000`. -/
theorem p_to_c_recognized (P Psystem : ℚ) (Punit : String) :
    p_to_c P Punit "ppm" Psystem =
      Except.ok ((P * punitFactor Punit) / (Psystem * punitFactor Punit) * 10 ^ 6) ∧
    p_to_c P Punit "ppb" Psystem =
      Except.ok ((P * punitFactor Punit) / (Psystem * punitFactor Punit) * 10 ^ 9) ∧
    p_to_c P Punit "ppt" Psystem =
      Except.ok ((P * punitFactor Punit) / (Psystem * punitFactor Punit) * 10 ^ 12) ∧
    p_to_c 10 "mbar" "ppm" 1000 = Except.ok 10000 := by
  by_cases h1 : Punit = "Pa" <;> by_cases h2 : Punit = "atm" <;>
    by_cases h3 : Punit = "torr" <;>
    simp [p_to_c, punitFactor, h1, h2, h3] <;> norm_num

/-- C4: the `Punit` branch of `p_to_c` multiplies `P` and `Psystem` by
the same fixed constant (`Pa: 0.01`, `atm: 1013.25`,
`torr: 1013.25/760`) before the ratio is taken, and every other value,
recognized (`"mbar"`) or not, leaves both unconverted without raising. -/
theorem p_to_c_punit_normalization (P Psystem : ℚ) (Cunit : String) :
    p_to_c P "Pa" Cunit Psystem =
      p_to_c (P * 0.01) "mbar" Cunit (Psystem * 0.01) ∧
    p_to_c P "atm" Cunit Psystem =
      p_to_c (P * 1013.25) "mbar" Cunit (Psystem * 1013.25) ∧
    p_to_c P "torr" Cunit Psystem =
      p_to_c (P * (1013.25 / 760)) "mbar" Cunit (Psystem * (1013.25 / 760)) ∧
    ∀ Punit : String, Punit ≠ "Pa" → Punit ≠ "atm" → Punit ≠ "torr" →
      p_to_c P Punit Cunit Psystem = p_to_c P "mbar" Cunit Psystem := by
  refine ⟨by simp [p_to_c], by simp [p_to_c], by simp [p_to_c], ?_⟩
  intro Punit h1 h2 h3
  simp [p_to_c, h1, h2, h3]

/-- Witness for C4 at concrete inputs: the unrecognized pressure unit
`"psi"` behaves exactly like `"mbar"`. -/
theorem p_to_c_punit_normalization_witness :
    p_to_c 2 "psi" "ppb" 4 = p_to_c 2 "mbar" "ppb" 4 :=
  (p_to_c_punit_normalization 2 4 "ppb").2.2.2 "psi"
    (by decide) (by decide) (by decide)

/-- C2: `chi_water` computes
`(0.01 * RH * (A * 10^(m*T/(T+Tn)))) / (P * 1000 / 760)` with the
Vaisala constants, and in particular `chi_water 25 50 760` (default
denominator convention) equals
`0.01 * 50 * 6.116441 * 10^((7.591386*25)/(25+240.7263)) / 1000`. -/
theorem chi_water_formula (T RH P : ℝ) :
    chi_water T RH P false =
      (0.01 * RH * (6.116441 * (10 : ℝ) ^ ((7.591386 * T) / (T + 240.7263)))) /
        (P * 1000 / 760) ∧
    chi_water 25 50 760 false =
      0.01 * 50 * 6.116441 * (10 : ℝ) ^ (((7.591386 * 25) / (25 + 240.7263) : ℝ)) / 1000 := by
  constructor <;>
    · simp only [chi_water, H2O_sat_P, A, m, Tn, Bool.false_eq_true, if_false]
      norm_num
      ring_nf

/-- C6: the default-convention output of `chi_water` is non-negative
whenever the relative humidity is non-negative and the total pressure
is positive. -/
theorem chi_water_nonneg (T RH P : ℝ) (hRH : 0 ≤ RH) (hP : 0 < P) :
    0 ≤ chi_water T RH P false := by
  have hsat : 0 < H2O_sat_P T := by
    unfold H2O_sat_P A
    positivity
  have h1 : 0 ≤ 0.01 * RH * H2O_sat_P T :=
    mul_nonneg (mul_nonneg (by norm_num) hRH) hsat.le
  have h2 : 0 < P * ((10 : ℝ) ^ (3 : ℕ) / 760) :=
    mul_pos hP (by norm_num)
  simpa [chi_water] using div_nonneg h1 h2.le

/-- Witness for C6 at `T = 25`, `RH = 50`, `P = 760`. -/
theorem chi_water_nonneg_witness : 0 ≤ chi_water 25 50 760 false :=
  chi_water_nonneg 25 50 760 (by norm_num) (by norm_num)

/-- Counterexample to C7 as stated: with `p_vapor_solute = 0` held
fixed, `raoults` is not strictly increasing in `conc`
(`raoults 0 0 78.11 = raoults 0 1 78.11 = 0`). -/
theorem raoults_mono_cex :
    ¬ (raoults 0 0 78.11 18.02 1 < raoults 0 1 78.11 18.02 1) := by
  norm_num [raoults]

/-- C7 (amended): `raoults` is strictly increasing in `conc` for fixed
positive `p_vapor_solute`, `mw_solute`, `mw_solvent`, `density` and
non-negative starting concentration. -/
theorem raoults_strictMono_conc (p c1 c2 mws mwv d : ℚ)
    (hp : 0 < p) (hmws : 0 < mws) (hmwv : 0 < mwv) (hd : 0 < d)
    (hc1 : 0 ≤ c1) (hlt : c1 < c2) :
    raoults p c1 mws mwv d < raoults p c2 mws mwv d := by
  have ha : (0 : ℚ) < 10 ^ (-3 : ℤ) := by positivity
  have hK : 0 < 1000 * d / mwv := by positivity
  have hm1 : 0 ≤ (c1 * 10 ^ (-3 : ℤ)) / mws := by positivity
  have hmlt : (c1 * 10 ^ (-3 : ℤ)) / mws < (c2 * 10 ^ (-3 : ℤ)) / mws := by
    rw [div_lt_div_iff_of_pos_right hmws]
    exact mul_lt_mul_of_pos_right hlt ha
  have key : (c1 * 10 ^ (-3 : ℤ)) / mws / ((c1 * 10 ^ (-3 : ℤ)) / mws + 1000 * d / mwv) <
      (c2 * 10 ^ (-3 : ℤ)) / mws / ((c2 * 10 ^ (-3 : ℤ)) / mws + 1000 * d / mwv) := by
    rw [div_lt_div_iff₀ (by linarith) (by linarith)]
    nlinarith [mul_lt_mul_of_pos_right hmlt hK]
  simpa [raoults] using mul_lt_mul_of_pos_left key hp

/-- Witness for C7 (amended) at `p = 100`, `conc` from 0 to 50,
`mw_solute = 78.11`, default solvent parameters. -/
theorem raoults_strictMono_conc_witness :
    raoults 100 0 78.11 18.02 1 < raoults 100 50 78.11 18.02 1 :=
  raoults_strictMono_conc 100 0 50 78.11 18.02 1 (by norm_num)
    (by norm_num) (by norm_num) (by norm_num) (by norm_num) (by norm_num)

/-- C9: the animation schedules exactly `N = len(x_vals)` frames, frame
`f` displays the length-`f+1` prefixes of the x and y data, and the
data displayed at an earlier frame `k ≤ f` is the length-`k+1` prefix
of the data displayed at frame `f` (so a point is never shown before
its predecessor). -/
theorem animate_progressive_reveal (x_vals y_vals : List ℚ) (ax : Axis)
    (sm : Bool) (mp : ℚ) (f k : ℕ)
    (hf : f < (animate x_vals y_vals ax sm mp).2.frames) (hk : k ≤ f) :
    (animate x_vals y_vals ax sm mp).2.frames = x_vals.length ∧
    (animate x_vals y_vals ax sm mp).2.update f =
      (x_vals.take (f + 1), y_vals.take (f + 1)) ∧
    ((animate x_vals y_vals ax sm mp).2.update k).1 =
      (((animate x_vals y_vals ax sm mp).2.update f).1).take (k + 1) ∧
    ((animate x_vals y_vals ax sm mp).2.update k).2 =
      (((animate x_vals y_vals ax sm mp).2.update f).2).take (k + 1) := by
  have hmin : min (k + 1) (f + 1) = k + 1 := by omega
  simp [animate, List.take_take, hmin]

/-- Witness for C9 on the three-point data set `x = [1,2,3]`,
`y = [4,5,6]`, frames `k = 0 ≤ f = 1`. -/
theorem animate_progressive_reveal_witness :
    (animate [1, 2, 3] [4, 5, 6] ⟨(0, 1), (0, 1)⟩ false (5 / 100)).2.frames =
      [(1 : ℚ), 2, 3].length ∧
    (animate [1, 2, 3] [4, 5, 6] ⟨(0, 1), (0, 1)⟩ false (5 / 100)).2.update 1 =
      ([(1 : ℚ), 2, 3].take 2, [(4 : ℚ), 5, 6].take 2) ∧
    ((animate [1, 2, 3] [4, 5, 6] ⟨(0, 1), (0, 1)⟩ false (5 / 100)).2.update 0).1 =
      (((animate [1, 2, 3] [4, 5, 6] ⟨(0, 1), (0, 1)⟩ false (5 / 100)).2.update 1).1).take 1 ∧
    ((animate [1, 2, 3] [4, 5, 6] ⟨(0, 1), (0, 1)⟩ false (5 / 100)).2.update 0).2 =
      (((animate [1, 2, 3] [4, 5, 6] ⟨(0, 1), (0, 1)⟩ false (5 / 100)).2.update 1).2).take 1 :=
  animate_progressive_reveal [1, 2, 3] [4, 5, 6] ⟨(0, 1), (0, 1)⟩ false (5 / 100)
    1 0 (by decide) (by decide)

/-- C10: with `set_margins = False` (its default), `animate` never
modifies the axis limits: the returned axis equals the input axis for
all data and margin fractions. -/
theorem animate_no_margin_no_axis_write (x_vals y_vals : List ℚ)
    (ax : Axis) (margin_pcnt : ℚ) :
    (animate x_vals y_vals ax false margin_pcnt).1 = ax := rfl
